import Mathlib

/-!
Shallow embedding of `app_rewire_cs_required.py`, a single-file data-labeling
application: a tabular dataset is loaded once, records are displayed one at a
time through a filtered view, edits are staged in a transient buffer and
committed to the dataset only by the Save action, and the labeled table can be
exported behind an acknowledgment gate.

Two levels are used, mirroring the two levels of the code itself:

* a generic dataframe level (`Cell`, `Row`, `DataFrame`) for the loader
  (`load_input`, `ensure_order`, the column-defaulting block, the load branch),
  where rows are name-addressed cell lists exactly as pandas addresses them;
* a structured record level (`Record`, `Staged`, `SessionState`) for the
  labeling state machine, projecting each dataframe row to the columns the
  transitions read and write: the stable order key, the `compound_semiconductor`
  flag, the ten tag columns (in `TAG_COLS` order) and `notes`.  After the load
  branch all of these columns exist, which is what makes the projection total.
-/

namespace Rewire

/-- Cell value in the tabular store: missing (`pd.NA` / `NaN`), a string, or an
integer. -/
inductive Cell where
  | na : Cell
  | str : String → Cell
  | int : Int → Cell
  deriving Repr, DecidableEq

/-- A dataframe row, addressed by column name as pandas addresses it. -/
abbrev Row := List (String × Cell)

/-- Value of column `col` in a row, if the column is present. -/
def lookupCol (row : Row) (col : String) : Option Cell :=
  (row.find? (fun p => p.1 == col)).map (fun p => p.2)

/-- Tabular dataset: column names plus rows (each row aligned with `cols`). -/
structure DataFrame where
  cols : List String
  rows : List Row
  deriving Repr, DecidableEq

/-- Constant `ORDER_COL` of the source: the stable-order working column. -/
def ORDER_COL : String := "__row_order"

/-- Constant `MAIN_FLAG_COL` of the source: the required ternary flag column. -/
def MAIN_FLAG_COL : String := "compound_semiconductor"

/-- The six supply-chain tag columns, in source order. -/
def SUPPLY_CHAIN_COLS : List String :=
  ["supply_chain_Substrate",
   "supply_chain_Epiwafer",
   "supply_chain_Device_Design",
   "supply_chain_Chip_Processing",
   "supply_chain_Package",
   "supply_chain_Equipment"]

/-- The four functional-taxonomy tag columns, in source order. -/
def FUNCTIONAL_COLS : List String :=
  ["functional_taxonomy_Compound RF",
   "functional_taxonomy_Compound Photonic",
   "functional_taxonomy_Compound Sensors",
   "functional_taxonomy_Power Devices"]

/-- `TAG_COLS = SUPPLY_CHAIN_COLS + FUNCTIONAL_COLS`. -/
def TAG_COLS : List String := SUPPLY_CHAIN_COLS ++ FUNCTIONAL_COLS

/-- The seven fixed display columns ensured by the load branch. -/
def NEEDED_COLS : List String :=
  ["Company name Latin alphabet",
   "Trade description (English)",
   "Description and history",
   "Website address",
   "Primary code in national industry classification - description",
   "Secondary code in national industry classification - description",
   "BvD sectors"]

/-- The placeholder sentinel the source uses for blank fields.  The source
file literally contains the three characters U+201A U+00C4 U+00EE (a
double-encoded em-dash baked into the file), so that exact string is the
value Python compares against. -/
def PLACEHOLDER : String := "‚Äî"

/-- Python `s.lower()`, character by character (the strings the application
lowercases are compared against ASCII scheme and suffix literals, for which
this agrees with Python). -/
def strLower (s : String) : String := String.mk (s.data.map Char.toLower)

/-- Python `s.startswith(pat)`. -/
def strStartsWith (s pat : String) : Bool := pat.data.isPrefixOf s.data

/-- Python `s.endswith(pat)`. -/
def strEndsWith (s pat : String) : Bool := pat.data.reverse.isPrefixOf s.data.reverse

/-- Python `s.strip()`: remove leading and trailing whitespace. -/
def strTrim (s : String) : String :=
  String.mk (((s.data.dropWhile Char.isWhitespace).reverse.dropWhile Char.isWhitespace).reverse)

/-- Python `str()` rendering of a cell, as used by `get_or_blank`. -/
def cellStr : Cell → String
  | Cell.na => "nan"
  | Cell.str s => s
  | Cell.int i => toString i

/-- `pd.notna` on a cell. -/
def notna : Cell → Bool
  | Cell.na => false
  | _ => true

/-- Helper `get_or_blank(row, col)` of the source: the field's string value if
present, non-null and non-blank after trimming, else the placeholder
sentinel. -/
def get_or_blank (row : Row) (col : String) : String :=
  match lookupCol row col with
  | some v => if notna v && !(strTrim (cellStr v) == "") then cellStr v else PLACEHOLDER
  | none => PLACEHOLDER

/-- Helper `normalize_url(url)` of the source: empty string for the empty or
sentinel input, otherwise the stripped input, with `https://` prepended when
the stripped, lowercased string starts with neither `http://` nor
`https://`. -/
def normalize_url (url : String) : String :=
  if url = "" || url = PLACEHOLDER then ""
  else
    let u := strTrim url
    if !(strStartsWith (strLower u) "http://" || strStartsWith (strLower u) "https://") then
      "https://" ++ u
    else
      u

/-- True for column names pandas marks as positional metadata: stripped,
lowercased name starting with "unnamed" (the loop at the top of
`ensure_order`). -/
def isUnnamed (c : String) : Bool := strStartsWith (strLower (strTrim c)) "unnamed"

/-- The column-dropping loop of `ensure_order`: remove every unnamed column. -/
def dropUnnamed (df : DataFrame) : DataFrame :=
  { cols := df.cols.filter (fun c => !isUnnamed c),
    rows := df.rows.map (fun r => r.filter (fun p => !isUnnamed p.1)) }

/-- The order-assignment step of `ensure_order`: when `ORDER_COL` is absent,
add it with values `range(1, len(df) + 1)` by row position. -/
def assignOrder (df : DataFrame) : DataFrame :=
  if df.cols.contains ORDER_COL then df
  else
    { cols := df.cols ++ [ORDER_COL],
      rows := ((List.range df.rows.length).zip df.rows).map
        (fun p => p.2 ++ [(ORDER_COL, Cell.int ((p.1 : Int) + 1))]) }

/-- Sort key used by `sort_values(ORDER_COL)`: the integer stored in the order
column.  On every path of the application the order column holds integers
(assigned by `assignOrder` or preserved from a prior export), so the fallback
value for a malformed cell is never exercised. -/
def orderKey (r : Row) : Int :=
  match lookupCol r ORDER_COL with
  | some (Cell.int i) => i
  | _ => 0

/-- The `sort_values(ORDER_COL, kind="stable")` step: a stable sort of the
rows by ascending order key (`reset_index(drop=True)` is the identity in the
list representation). -/
def sortByOrder (df : DataFrame) : DataFrame :=
  { df with rows := df.rows.mergeSort (fun a b => decide (orderKey a ≤ orderKey b)) }

/-- Function `ensure_order(df)` of the source: drop unnamed columns, assign
the stable order column if absent, and stable-sort by it. -/
def ensure_order (df : DataFrame) : DataFrame :=
  sortByOrder (assignOrder (dropUnnamed df))

/-- An uploaded file as the loader sees it: its name, what `pd.read_csv`
would yield for it (`none` = parse exception), and what `pd.ExcelFile` would
yield (`none` = parse exception, otherwise the named sheets). -/
structure UploadedFile where
  name : String
  csvResult : Option DataFrame
  excelSheets : Option (List (String × DataFrame))

/-- Function `load_input(file)` of the source: dispatch on the `.csv` name
suffix; a workbook must contain a sheet literally named `Results`, whose
content is returned; any parse failure or the missing sheet raises, modelled
as `Except.error`. -/
def load_input (f : UploadedFile) : Except String DataFrame :=
  if strEndsWith (strLower f.name) ".csv" then
    match f.csvResult with
    | some d => Except.ok d
    | none => Except.error "failed to parse CSV"
  else
    match f.excelSheets with
    | none => Except.error "failed to parse Excel workbook"
    | some sheets =>
      match sheets.find? (fun p => p.1 == "Results") with
      | some p => Except.ok p.2
      | none => Except.error "Sheet 'Results' not found in Excel"

/-- Add a column with a default value to every row, when it is absent (one
`if c not in df.columns: df[c] = v` statement of the load branch). -/
def addColDefault (df : DataFrame) (c : String) (v : Cell) : DataFrame :=
  if df.cols.contains c then df
  else { cols := df.cols ++ [c], rows := df.rows.map (fun r => r ++ [(c, v)]) }

/-- The column-defaulting block of the load branch followed by
`ensure_order`: display columns default to missing, tag columns to `0`, the
flag and notes columns to missing. -/
def prepareLoaded (d : DataFrame) : DataFrame :=
  let d1 := NEEDED_COLS.foldl (fun acc c => addColDefault acc c Cell.na) d
  let d2 := TAG_COLS.foldl (fun acc c => addColDefault acc c (Cell.int 0)) d1
  let d3 := addColDefault d2 MAIN_FLAG_COL Cell.na
  let d4 := addColDefault d3 "notes" Cell.na
  ensure_order d4

/-- Structured projection of one dataset row: exactly the columns the
labeling state machine reads and writes.  `flag` is the
`compound_semiconductor` cell (`none` = `pd.NA`), `tags` holds the ten tag
cells aligned with `TAG_COLS`, `notes` the notes cell. -/
structure Record where
  order : Int
  flag : Option String
  tags : List Int
  notes : Option String
  deriving Repr, DecidableEq

/-- The transient staging buffer `st.session_state.staged`: the bound order
key, the required flag (`none` = not selected yet, `some true` = Y,
`some false` = N), the staged tag booleans aligned with `TAG_COLS`, and the
staged notes text. -/
structure Staged where
  order : Int
  flag : Option Bool
  tags : List Bool
  notes : String
  deriving Repr, DecidableEq

/-- Function `init_staged_state(order_val)` of the source: a blank staged
buffer bound to the given row order. -/
def init_staged_state (orderVal : Int) : Staged :=
  { order := orderVal,
    flag := none,
    tags := TAG_COLS.map (fun _ => false),
    notes := "" }

/-- The session state the labeling state machine works on once a dataset is
loaded: the dataset, the view cursor `view_idx`, the `filter_unlabeled`
toggle and the staging buffer. -/
structure SessionState where
  df : List Record
  view_idx : Nat
  filter_unlabeled : Bool
  staged : Option Staged
  deriving Repr, DecidableEq

/-- The unlabeled predicate of line 157: the row's tag columns sum to zero
and its flag is missing. -/
def isUnlabeled (r : Record) : Bool :=
  decide (r.tags.sum = 0) && r.flag.isNone

/-- Line 158: `remaining = int(unlabeled_mask.sum())`. -/
def remaining (df : List Record) : Nat :=
  (df.filter isUnlabeled).length

/-- Line 163: the view is the unlabeled rows when the filter is on, else the
whole dataset (`reset_index(drop=True)` is the identity here). -/
def buildView (df : List Record) (filterUnlabeled : Bool) : List Record :=
  if filterUnlabeled then df.filter isUnlabeled else df

/-- Lines 170-173: the cursor is reset to 0 when it is out of bounds of the
(non-empty) view, else kept. -/
def clampIdx (viewLen : Nat) (i : Nat) : Nat :=
  if i ≥ viewLen then 0 else i

/-- Line 176: `real_pos = df.index[df[ORDER_COL] == row[ORDER_COL]][0]`, the
first dataset position whose order key matches. -/
def real_pos (df : List Record) (ord : Int) : Option Nat :=
  df.findIdx? (fun r => decide (r.order = ord))

/-- Lines 179-180: reinitialize the staging buffer when it is absent or bound
to a different row order, else keep it. -/
def loadRecordStaged (staged : Option Staged) (rowOrder : Int) : Staged :=
  match staged with
  | none => init_staged_state rowOrder
  | some s => if s.order ≠ rowOrder then init_staged_state rowOrder else s

/-- The per-render processing of the record slot: when the view is non-empty,
clamp the cursor (lines 170-173) and bind the staging buffer to the displayed
row (lines 175-180).  The empty view stops the script before this point. -/
def render (s : SessionState) : SessionState :=
  if (buildView s.df s.filter_unlabeled).length = 0 then s
  else
    match (buildView s.df s.filter_unlabeled)[clampIdx
        (buildView s.df s.filter_unlabeled).length s.view_idx]? with
    | some row =>
      { s with
        view_idx := clampIdx (buildView s.df s.filter_unlabeled).length s.view_idx,
        staged := some (loadRecordStaged s.staged row.order) }
    | none => s

/-- Line 267: `save_disabled = st.session_state.staged["flag"] is None`. -/
def save_disabled (stg : Staged) : Bool := stg.flag.isNone

/-- The Skip button body (lines 262-263): advance the clamped cursor by one,
capped at the last view slot, and discard the staging buffer.  The dataset is
not touched. -/
def skipStep (s : SessionState) : SessionState :=
  { s with
    view_idx := min ((buildView s.df s.filter_unlabeled).length - 1)
      (clampIdx (buildView s.df s.filter_unlabeled).length s.view_idx + 1),
    staged := none }

/-- The Prev button body (lines 257-258). -/
def prevStep (s : SessionState) : SessionState :=
  { s with
    view_idx := max 0
      (clampIdx (buildView s.df s.filter_unlabeled).length s.view_idx - 1),
    staged := none }

/-- The commit of lines 272-275 applied to the row at `real_pos`: the flag
cell becomes the literal "Y" when the staged flag is truthy and "N"
otherwise, every tag cell becomes 1 or 0 from the staged tags, the notes cell
receives the staged notes.  All other columns of the row (here: the order
key) are untouched. -/
def commitRecord (stg : Staged) (r : Record) : Record :=
  { order := r.order,
    flag := some (if stg.flag.getD false then "Y" else "N"),
    tags := stg.tags.map (fun b => if b then (1 : Int) else 0),
    notes := some stg.notes }

/-- The Save & Next button body (lines 272-277): commit the staged buffer to
the dataset row at `real_pos`, advance the cursor like Skip, and discard the
buffer. -/
def saveStep (s : SessionState) : SessionState :=
  match (buildView s.df s.filter_unlabeled)[clampIdx
      (buildView s.df s.filter_unlabeled).length s.view_idx]?, s.staged with
  | some row, some stg =>
    match real_pos s.df row.order with
    | some pos =>
      match s.df[pos]? with
      | some r =>
        { df := s.df.set pos (commitRecord stg r),
          view_idx := min ((buildView s.df s.filter_unlabeled).length - 1)
            (clampIdx (buildView s.df s.filter_unlabeled).length s.view_idx + 1),
          filter_unlabeled := s.filter_unlabeled,
          staged := none }
      | none => s
    | none => s
  | _, _ => s

/-- The Save & Next button as rendered (lines 266-278): the action is
unreachable (`disabled=save_disabled`) while the staged flag is unset, and
performs `saveStep` otherwise. -/
def saveButton (s : SessionState) : Option SessionState :=
  match s.staged with
  | none => none
  | some stg => if save_disabled stg then none else some (saveStep s)

/-- Whether the export download is enabled for a given acknowledgment-toggle
value: on the empty-view path (lines 164-167) it always is; otherwise
(lines 282-289) `allow_export` is the toggle when unfinished records remain
and `True` when none do. -/
def exportEnabled (s : SessionState) (ack : Bool) : Bool :=
  if (buildView s.df s.filter_unlabeled).length = 0 then true
  else if 0 < remaining s.df then ack else true

/-- Whether the unfinished-records warning of line 283 is rendered. -/
def warningShown (s : SessionState) : Bool :=
  decide ((buildView s.df s.filter_unlabeled).length ≠ 0) &&
    decide (0 < remaining s.df)

/-- The export section as a state transformer: it renders the download button
(enabled or not) and leaves the session state untouched — `df.to_csv` only
reads the dataset. -/
def exportSection (s : SessionState) (ack : Bool) : SessionState × Bool :=
  (s, exportEnabled s ack)

/-- The whole-session state around the load branch: the dataset slot is empty
until a load succeeds. -/
structure AppSession where
  df : Option DataFrame
  view_idx : Nat
  filter_unlabeled : Bool
  staged : Option Staged

/-- The load branch (lines 127-148): it runs only when a file is uploaded and
no dataset is held yet; on success the prepared dataframe is stored, on
failure the error is surfaced (`st.error`, returned here as the second
component) and the session is left as it was. -/
def loadBranch (s : AppSession) (uploaded : Option UploadedFile) :
    AppSession × Option String :=
  match uploaded with
  | none => (s, none)
  | some f =>
    match s.df with
    | some _ => (s, none)
    | none =>
      match load_input f with
      | Except.ok d => ({ s with df := some (prepareLoaded d) }, none)
      | Except.error e => (s, some ("Failed to load data: " ++ e))

/-! Helper lemmas shared by the claim theorems. -/

/-- Membership in the view implies membership in the dataset: the view is
either the dataset itself or a filtering of it. -/
theorem mem_of_mem_buildView {df : List Record} {b : Bool} {r : Record}
    (h : r ∈ buildView df b) : r ∈ df := by
  unfold buildView at h
  split at h
  · exact List.mem_of_mem_filter h
  · exact h

/-- When the order keys of the dataset are pairwise distinct, `real_pos`
locates exactly the row it was handed. -/
theorem real_pos_locates {df : List Record} {row : Record}
    (hnd : (df.map Record.order).Nodup) (hmem : row ∈ df) :
    ∃ pos, real_pos df row.order = some pos ∧ df[pos]? = some row := by
  obtain ⟨k, hk⟩ := List.mem_iff_getElem?.mp hmem
  obtain ⟨hklt, hkeq⟩ := List.getElem?_eq_some_iff.mp hk
  have hex : ∃ x, x ∈ df ∧ decide (x.order = row.order) = true := ⟨row, hmem, by simp⟩
  obtain ⟨pos, hpos⟩ : ∃ pos,
      df.findIdx? (fun r => decide (r.order = row.order)) = some pos :=
    ⟨_, List.findIdx?_eq_some_of_exists hex⟩
  refine ⟨pos, hpos, ?_⟩
  rw [List.findIdx?_eq_some_iff_getElem] at hpos
  obtain ⟨hlt, hp, -⟩ := hpos
  have hord : df[pos].order = df[k].order := by
    rw [hkeq]
    simpa using hp
  have hpk : pos = k := by
    have hmp : pos < (df.map Record.order).length := by simpa using hlt
    have hmk : k < (df.map Record.order).length := by simpa using hklt
    have h1 : (df.map Record.order).get ⟨pos, hmp⟩ =
        (df.map Record.order).get ⟨k, hmk⟩ := by
      simp only [List.get_eq_getElem, List.getElem_map]
      exact hord
    exact congrArg Fin.val ((List.Nodup.get_inj_iff hnd).mp h1)
  rw [hpk]
  exact hk

/-- Replacing a row that satisfies the unlabeled predicate by one that does
not lowers the unlabeled count by exactly one. -/
theorem length_filter_set_unlabeled {l : List Record} {a b : Record} {i : Nat}
    (h : l[i]? = some a) (ha : isUnlabeled a = true) (hb : isUnlabeled b = false) :
    ((l.set i b).filter isUnlabeled).length + 1 = (l.filter isUnlabeled).length := by
  induction l generalizing i with
  | nil => simp at h
  | cons x t ih =>
    cases i with
    | zero =>
      simp only [List.getElem?_cons_zero, Option.some.injEq] at h
      subst h
      simp [List.filter_cons, ha, hb]
    | succ n =>
      simp only [List.getElem?_cons_succ] at h
      have hrec := ih h
      simp only [List.set_cons_succ, List.filter_cons]
      split <;> simpa using hrec

/-- When the clamped cursor points at a displayed row and the staging buffer
is present, the Save body commits the staged buffer at `real_pos` and
advances the cursor. -/
theorem saveStep_eq {s : SessionState} {row : Record} {stg : Staged} {pos : Nat}
    (hst : s.staged = some stg)
    (hrow : (buildView s.df s.filter_unlabeled)[clampIdx
      (buildView s.df s.filter_unlabeled).length s.view_idx]? = some row)
    (hpos : real_pos s.df row.order = some pos)
    (hget : s.df[pos]? = some row) :
    saveStep s =
      { df := s.df.set pos (commitRecord stg row),
        view_idx := min ((buildView s.df s.filter_unlabeled).length - 1)
          (clampIdx (buildView s.df s.filter_unlabeled).length s.view_idx + 1),
        filter_unlabeled := s.filter_unlabeled,
        staged := none } := by
  unfold saveStep
  rw [hrow, hst]
  simp only [hpos, hget]

/-- A positive unlabeled count forces the view to be non-empty, with either
filter setting. -/
theorem buildView_length_ne_zero {df : List Record} {b : Bool}
    (h : 0 < remaining df) : (buildView df b).length ≠ 0 := by
  have hle := List.length_filter_le isUnlabeled df
  unfold remaining at h
  unfold buildView
  cases b
  · rw [if_neg (by decide)]
    omega
  · rw [if_pos rfl]
    omega

/-- A column lookup misses exactly when the underlying search misses. -/
theorem lookupCol_eq_none {r : Row} {c : String} :
    lookupCol r c = none ↔ r.find? (fun p => p.1 == c) = none := by
  unfold lookupCol
  cases h : r.find? (fun p => p.1 == c) <;> simp [h]

/-- Appending the order pair to a row without an order key makes `orderKey`
return exactly the appended integer. -/
theorem orderKey_append {r : Row} {k : Int} (h : lookupCol r ORDER_COL = none) :
    orderKey (r ++ [(ORDER_COL, Cell.int k)]) = k := by
  have hfind := lookupCol_eq_none.mp h
  unfold orderKey lookupCol
  rw [List.find?_append, hfind]
  simp

/-- A `contains` miss survives passing to a sublist. -/
theorem contains_eq_false_sublist {l₁ l₂ : List String} {a : String}
    (h : List.Sublist l₁ l₂) (hc : l₂.contains a = false) :
    l₁.contains a = false := by
  rw [Bool.eq_false_iff] at hc ⊢
  intro h1
  apply hc
  rw [List.contains_iff_exists_mem_beq] at h1 ⊢
  obtain ⟨x, hx, hbeq⟩ := h1
  exact ⟨x, h.subset hx, hbeq⟩

/-! Claim theorems. -/

/-- C2: Skip never mutates the dataset — no record's flag, tags or notes
change — and it only advances the cursor to `min(len(view)-1, cursor+1)` and
discards the staging buffer. -/
theorem skip_is_non_commit (s : SessionState) :
    (skipStep s).df = s.df ∧
    (skipStep s).staged = none ∧
    (skipStep s).filter_unlabeled = s.filter_unlabeled ∧
    (s.view_idx < (buildView s.df s.filter_unlabeled).length →
      (skipStep s).view_idx =
        min ((buildView s.df s.filter_unlabeled).length - 1) (s.view_idx + 1)) := by
  refine ⟨rfl, rfl, rfl, ?_⟩
  intro h
  simp only [skipStep, clampIdx]
  rw [if_neg (by omega)]

/-- C2 witness: the Skip theorem applied to a concrete one-record session. -/
theorem skip_is_non_commit_witness :
    (skipStep { df := [{ order := 1, flag := none,
                         tags := [0, 0, 0, 0, 0, 0, 0, 0, 0, 0], notes := none }],
                view_idx := 0, filter_unlabeled := false,
                staged := some (init_staged_state 1) }).view_idx =
      min ((buildView [{ order := 1, flag := none,
                         tags := [0, 0, 0, 0, 0, 0, 0, 0, 0, 0], notes := none }]
              false).length - 1) (0 + 1) :=
  (skip_is_non_commit _).2.2.2 (by decide)

/-- C4: while unfinished records remain, the export download is enabled
exactly when the acknowledgment toggle is set, the toggle does not mutate
the session, and with no unfinished records the export is always enabled and
the warning is not rendered. -/
theorem export_gate (s : SessionState) :
    (0 < remaining s.df → exportEnabled s false = false) ∧
    (0 < remaining s.df → exportEnabled s true = true) ∧
    (remaining s.df = 0 →
      (∀ ack : Bool, exportEnabled s ack = true) ∧ warningShown s = false) ∧
    (∀ ack : Bool, (exportSection s ack).1 = s) := by
  refine ⟨?_, ?_, ?_, fun _ => rfl⟩
  · intro h
    unfold exportEnabled
    rw [if_neg (buildView_length_ne_zero h), if_pos h]
  · intro h
    unfold exportEnabled
    rw [if_neg (buildView_length_ne_zero h), if_pos h]
  · intro h
    constructor
    · intro ack
      unfold exportEnabled
      split
      · rfl
      · rw [if_neg (by omega)]
    · simp [warningShown, h]

/-- C4 witness: the export-gate theorem applied to a concrete session with
one unlabeled record. -/
theorem export_gate_witness :
    exportEnabled { df := [{ order := 1, flag := none,
                             tags := [0, 0, 0, 0, 0, 0, 0, 0, 0, 0], notes := none }],
                    view_idx := 0, filter_unlabeled := true, staged := none }
      false = false ∧
    exportEnabled { df := [{ order := 1, flag := none,
                             tags := [0, 0, 0, 0, 0, 0, 0, 0, 0, 0], notes := none }],
                    view_idx := 0, filter_unlabeled := true, staged := none }
      true = true :=
  ⟨(export_gate _).1 (by decide), (export_gate _).2.1 (by decide)⟩

/-- C5: for a dataset lacking the stable-order column, the loader assigns
order values 1..N by original row position (a permutation of 1..N matching
the original row order), the stable sort by ascending order leaves the rows
in exactly that order, the order values of any filtered view are a
subsequence of 1..N (never recomputed), and re-sorting any view only
permutes the existing order values. -/
theorem ensure_order_assigns (df : DataFrame)
    (hcols : df.cols.contains ORDER_COL = false)
    (hrows : ∀ r ∈ df.rows, lookupCol r ORDER_COL = none) :
    (ensure_order df).rows =
      ((List.range df.rows.length).zip (dropUnnamed df).rows).map
        (fun p => p.2 ++ [(ORDER_COL, Cell.int ((p.1 : Int) + 1))]) ∧
    (ensure_order df).rows.map orderKey =
      (List.range df.rows.length).map (fun i : Nat => (i : Int) + 1) ∧
    (∀ p : Row → Bool,
      List.Sublist (((ensure_order df).rows.filter p).map orderKey)
        ((List.range df.rows.length).map (fun i : Nat => (i : Int) + 1))) ∧
    (∀ v : DataFrame,
      ((sortByOrder v).rows.map orderKey).Perm (v.rows.map orderKey)) := by
  have hclen : (dropUnnamed df).rows.length = df.rows.length := by
    unfold dropUnnamed
    simp
  have hc : (dropUnnamed df).cols.contains ORDER_COL = false :=
    contains_eq_false_sublist (List.filter_sublist df.cols) hcols
  have hdkeys : ∀ r ∈ (dropUnnamed df).rows, lookupCol r ORDER_COL = none := by
    intro r hr
    unfold dropUnnamed at hr
    simp only [List.mem_map] at hr
    obtain ⟨r0, hr0, rfl⟩ := hr
    rw [lookupCol_eq_none, List.find?_eq_none]
    intro x hx
    exact List.find?_eq_none.mp (lookupCol_eq_none.mp (hrows r0 hr0)) x
      (List.mem_of_mem_filter hx)
  have hassign : assignOrder (dropUnnamed df) =
      { cols := (dropUnnamed df).cols ++ [ORDER_COL],
        rows := ((List.range df.rows.length).zip (dropUnnamed df).rows).map
          (fun p => p.2 ++ [(ORDER_COL, Cell.int ((p.1 : Int) + 1))]) } := by
    unfold assignOrder
    rw [if_neg (by rw [hc]; simp), hclen]
  have hkeymap :
      (((List.range df.rows.length).zip (dropUnnamed df).rows).map
        (fun p => p.2 ++ [(ORDER_COL, Cell.int ((p.1 : Int) + 1))])).map orderKey =
      (List.range df.rows.length).map (fun i : Nat => (i : Int) + 1) := by
    rw [List.map_map]
    have hcong : ∀ p ∈ (List.range df.rows.length).zip (dropUnnamed df).rows,
        (orderKey ∘ fun p => p.2 ++ [(ORDER_COL, Cell.int ((p.1 : Int) + 1))]) p =
          ((fun i : Nat => (i : Int) + 1) ∘ Prod.fst) p := by
      intro p hp
      have hp2 : p.2 ∈ (dropUnnamed df).rows := by
        obtain ⟨i, r⟩ := p
        exact (List.of_mem_zip hp).2
      exact orderKey_append (hdkeys _ hp2)
    rw [List.map_congr_left hcong, ← List.map_map]
    rw [List.map_fst_zip _ _ (by rw [List.length_range, hclen])]
  have hpw : (((List.range df.rows.length).zip (dropUnnamed df).rows).map
      (fun p => p.2 ++ [(ORDER_COL, Cell.int ((p.1 : Int) + 1))])).Pairwise
      (fun a b => decide (orderKey a ≤ orderKey b) = true) := by
    have h1 : (((List.range df.rows.length).zip (dropUnnamed df).rows).map
        (fun p => p.2 ++ [(ORDER_COL, Cell.int ((p.1 : Int) + 1))])).map orderKey
        |>.Pairwise (fun a b : Int => a ≤ b) := by
      rw [hkeymap, List.pairwise_map]
      exact (List.pairwise_lt_range df.rows.length).imp
        (fun {a b} h => by show (a : Int) + 1 ≤ (b : Int) + 1; omega)
    exact (List.pairwise_map.mp h1).imp (fun h => decide_eq_true h)
  have hrows_eq : (ensure_order df).rows =
      ((List.range df.rows.length).zip (dropUnnamed df).rows).map
        (fun p => p.2 ++ [(ORDER_COL, Cell.int ((p.1 : Int) + 1))]) := by
    unfold ensure_order sortByOrder
    rw [hassign]
    exact List.mergeSort_of_sorted hpw
  have hB : (ensure_order df).rows.map orderKey =
      (List.range df.rows.length).map (fun i : Nat => (i : Int) + 1) := by
    rw [hrows_eq]
    exact hkeymap
  refine ⟨hrows_eq, hB, ?_, ?_⟩
  · intro p
    have hsub := (List.filter_sublist (p := p) ((ensure_order df).rows)).map orderKey
    rwa [hB] at hsub
  · intro v
    exact (List.mergeSort_perm v.rows _).map orderKey

/-- C5 witness: the order-assignment theorem applied to a concrete two-row
dataset with an unnamed column and no order column. -/
theorem ensure_order_assigns_witness :
    (ensure_order
      { cols := ["A", "Unnamed: 0"],
        rows := [[("A", Cell.str "x"), ("Unnamed: 0", Cell.int 7)],
                 [("A", Cell.str "y"), ("Unnamed: 0", Cell.int 8)]] }).rows.map
      orderKey =
    (List.range
      ({ cols := ["A", "Unnamed: 0"],
         rows := [[("A", Cell.str "x"), ("Unnamed: 0", Cell.int 7)],
                  [("A", Cell.str "y"), ("Unnamed: 0", Cell.int 8)]] } :
        DataFrame).rows.length).map (fun i : Nat => (i : Int) + 1) :=
  (ensure_order_assigns _ (by decide) (by decide)).2.1

/-- C6: on loading a record slot, an absent staging buffer or one bound to a
different order key is reinitialized to the blank buffer bound to the
displayed order (flag unset, all ten tags false, empty notes); a buffer
already bound to the displayed order is kept unchanged. -/
theorem load_record_staged (ord : Int) :
    loadRecordStaged none ord = init_staged_state ord ∧
    (∀ stg : Staged, stg.order ≠ ord →
      loadRecordStaged (some stg) ord = init_staged_state ord) ∧
    (∀ stg : Staged, stg.order = ord →
      loadRecordStaged (some stg) ord = stg) ∧
    (init_staged_state ord).order = ord ∧
    (init_staged_state ord).flag = none ∧
    (∀ b ∈ (init_staged_state ord).tags, b = false) ∧
    (init_staged_state ord).notes = "" ∧
    (init_staged_state ord).tags.length = TAG_COLS.length ∧
    TAG_COLS.length = 10 := by
  refine ⟨rfl, ?_, ?_, rfl, rfl, ?_, rfl, by simp [init_staged_state], by decide⟩
  · intro stg h
    simp [loadRecordStaged, h]
  · intro stg h
    simp [loadRecordStaged, h]
  · intro b hb
    simp only [init_staged_state, List.mem_map] at hb
    obtain ⟨-, -, hb⟩ := hb
    exact hb.symm

/-- C6 witness: the reinitialization theorem applied to a buffer bound to a
different record. -/
theorem load_record_staged_witness :
    loadRecordStaged (some (init_staged_state 2)) 3 = init_staged_state 3 :=
  (load_record_staged 3).2.1 (init_staged_state 2) (by decide)

/-- C7: on every recomputation of a non-empty view the cursor is clamped into
`[0, len(view)-1]`: it is reset to 0 exactly when it is out of bounds and
kept otherwise, and the render step stores the clamped value. -/
theorem cursor_clamped :
    (∀ viewLen i : Nat, 0 < viewLen → clampIdx viewLen i < viewLen) ∧
    (∀ viewLen i : Nat, viewLen ≤ i → clampIdx viewLen i = 0) ∧
    (∀ viewLen i : Nat, i < viewLen → clampIdx viewLen i = i) ∧
    (∀ s : SessionState, 0 < (buildView s.df s.filter_unlabeled).length →
      (render s).view_idx =
        clampIdx (buildView s.df s.filter_unlabeled).length s.view_idx) := by
  refine ⟨?_, ?_, ?_, ?_⟩
  · intro viewLen i h
    unfold clampIdx
    split <;> omega
  · intro viewLen i h
    unfold clampIdx
    rw [if_pos (by omega)]
  · intro viewLen i h
    unfold clampIdx
    rw [if_neg (by omega)]
  · intro s h
    have hlt : clampIdx (buildView s.df s.filter_unlabeled).length s.view_idx <
        (buildView s.df s.filter_unlabeled).length := by
      unfold clampIdx
      split <;> omega
    unfold render
    rw [if_neg (by omega), List.getElem?_eq_getElem hlt]

/-- C7 witness: the clamping theorem applied at concrete values. -/
theorem cursor_clamped_witness : clampIdx 3 5 = 0 ∧ clampIdx 3 2 = 2 :=
  ⟨cursor_clamped.2.1 3 5 (by decide), cursor_clamped.2.2.1 3 2 (by decide)⟩

/-- C8: loading fails when a workbook has no sheet literally named `Results`
or when the source cannot be parsed at all, and on any load failure the
error is surfaced while the session state is returned unchanged. -/
theorem load_failure_behavior :
    (∀ (f : UploadedFile) (sheets : List (String × DataFrame)),
      strEndsWith (strLower f.name) ".csv" = false →
      f.excelSheets = some sheets →
      sheets.find? (fun p => p.1 == "Results") = none →
      load_input f = Except.error "Sheet 'Results' not found in Excel") ∧
    (∀ f : UploadedFile,
      strEndsWith (strLower f.name) ".csv" = true → f.csvResult = none →
      load_input f = Except.error "failed to parse CSV") ∧
    (∀ f : UploadedFile,
      strEndsWith (strLower f.name) ".csv" = false → f.excelSheets = none →
      load_input f = Except.error "failed to parse Excel workbook") ∧
    (∀ (s : AppSession) (f : UploadedFile) (e : String),
      s.df = none → load_input f = Except.error e →
      loadBranch s (some f) = (s, some ("Failed to load data: " ++ e))) := by
  refine ⟨?_, ?_, ?_, ?_⟩
  · intro f sheets h1 h2 h3
    simp [load_input, h1, h2, h3]
  · intro f h1 h2
    simp [load_input, h1, h2]
  · intro f h1 h2
    simp [load_input, h1, h2]
  · intro s f e h1 h2
    simp [loadBranch, h1, h2]

/-- C8 witness: a workbook without a `Results` sheet fails, and the failing
load leaves a concrete session untouched. -/
theorem load_failure_behavior_witness :
    load_input { name := "book.xlsx", csvResult := none,
                 excelSheets := some [("Sheet1", { cols := [], rows := [] })] } =
      Except.error "Sheet 'Results' not found in Excel" :=
  load_failure_behavior.1 _ [("Sheet1", { cols := [], rows := [] })]
    (by decide) rfl (by decide)

/-- C9 counterexample: `"https://x.com "` is already schemed under the
claim's case-insensitive check, yet `normalize_url` does not return it
untouched — it strips the trailing whitespace. -/
theorem normalize_url_not_untouched :
    strStartsWith (strLower "https://x.com ") "https://" = true ∧
    normalize_url "https://x.com " ≠ "https://x.com " ∧
    normalize_url "https://x.com " = "https://x.com" := by
  refine ⟨by decide, by decide, by decide⟩

/-- C9 (amended): `normalize_url` returns the empty string for empty or
placeholder-sentinel input; every other input is first stripped of
surrounding whitespace, then `https://` is prepended when the stripped
string lacks an `http://`/`https://` scheme (case-insensitively), and the
stripped string is returned unchanged when it already has one — so an
already-schemed URL without surrounding whitespace is returned untouched. -/
theorem normalize_url_spec :
    normalize_url "" = "" ∧
    normalize_url PLACEHOLDER = "" ∧
    normalize_url "example.com" = "https://example.com" ∧
    normalize_url "https://x.com" = "https://x.com" ∧
    (∀ url : String, url ≠ "" → url ≠ PLACEHOLDER →
      strStartsWith (strLower (strTrim url)) "http://" = false →
      strStartsWith (strLower (strTrim url)) "https://" = false →
      normalize_url url = "https://" ++ strTrim url) ∧
    (∀ url : String, url ≠ "" → url ≠ PLACEHOLDER →
      (strStartsWith (strLower (strTrim url)) "http://" = true ∨
       strStartsWith (strLower (strTrim url)) "https://" = true) →
      normalize_url url = strTrim url) ∧
    (∀ url : String, url ≠ "" → url ≠ PLACEHOLDER → strTrim url = url →
      (strStartsWith (strLower url) "http://" = true ∨
       strStartsWith (strLower url) "https://" = true) →
      normalize_url url = url) := by
  have hschemed : ∀ url : String, url ≠ "" → url ≠ PLACEHOLDER →
      (strStartsWith (strLower (strTrim url)) "http://" = true ∨
       strStartsWith (strLower (strTrim url)) "https://" = true) →
      normalize_url url = strTrim url := by
    intro url h1 h2 h3
    rcases h3 with h3 | h3 <;> simp [normalize_url, h1, h2, h3]
  refine ⟨by decide, by decide, by decide, by decide, ?_, hschemed, ?_⟩
  · intro url h1 h2 h3 h4
    simp [normalize_url, h1, h2, h3, h4]
  · intro url h1 h2 htrim h3
    have heq := hschemed url h1 h2 (by rw [htrim]; exact h3)
    rw [heq]
    exact htrim

/-- C9 witness: the amended theorem applied at a concrete schemeless
input. -/
theorem normalize_url_spec_witness :
    normalize_url "x.com" = "https://" ++ strTrim "x.com" :=
  normalize_url_spec.2.2.2.2.1 "x.com" (by decide) (by decide) (by decide) (by decide)

/-- C1: the Save action is unreachable while the staged ternary flag is
unset; when the flag is set and Save is invoked, it commits exactly the one
displayed record — the record's flag becomes the literal string "Y" or "N"
(never stays unset), each of the ten tag fields becomes exactly 1 or 0 from
the staged tags, the notes field receives the staged notes verbatim — the
cursor advances to `min(len(view)-1, cursor+1)`, the staging buffer is
discarded, and no other record is modified. -/
theorem save_guard_and_commit (s : SessionState) (row : Record) (stg : Staged)
    (hnd : (s.df.map Record.order).Nodup)
    (hst : s.staged = some stg)
    (hidx : s.view_idx < (buildView s.df s.filter_unlabeled).length)
    (hrow : (buildView s.df s.filter_unlabeled)[s.view_idx]? = some row) :
    (stg.flag = none → saveButton s = none) ∧
    (∀ b : Bool, stg.flag = some b →
      ∃ (pos : Nat) (target : Record),
        target = { order := row.order,
                   flag := some (if b then "Y" else "N"),
                   tags := stg.tags.map (fun t => if t then (1 : Int) else 0),
                   notes := some stg.notes } ∧
        real_pos s.df row.order = some pos ∧
        s.df[pos]? = some row ∧
        saveButton s = some
          { df := s.df.set pos target,
            view_idx := min ((buildView s.df s.filter_unlabeled).length - 1)
              (s.view_idx + 1),
            filter_unlabeled := s.filter_unlabeled,
            staged := none } ∧
        (target.flag = some "Y" ∨ target.flag = some "N") ∧
        (∀ v ∈ target.tags, v = 0 ∨ v = 1) ∧
        target.tags.length = stg.tags.length ∧
        target.notes = some stg.notes ∧
        (∀ j : Nat, j ≠ pos → (s.df.set pos target)[j]? = s.df[j]?)) ∧
    TAG_COLS.length = 10 := by
  have hcl : clampIdx (buildView s.df s.filter_unlabeled).length s.view_idx =
      s.view_idx := by
    unfold clampIdx
    rw [if_neg (by omega)]
  refine ⟨?_, ?_, by decide⟩
  · intro hflag
    simp [saveButton, hst, save_disabled, hflag]
  · intro b hflag
    have hmem : row ∈ s.df :=
      mem_of_mem_buildView (List.mem_iff_getElem?.mpr ⟨s.view_idx, hrow⟩)
    obtain ⟨pos, hpos, hget⟩ := real_pos_locates hnd hmem
    have hcomm : commitRecord stg row =
        { order := row.order,
          flag := some (if b then "Y" else "N"),
          tags := stg.tags.map (fun t => if t then (1 : Int) else 0),
          notes := some stg.notes } := by
      simp [commitRecord, hflag]
    have hsave := saveStep_eq hst (by rw [hcl]; exact hrow) hpos hget
    rw [hcl, hcomm] at hsave
    refine ⟨pos, _, rfl, hpos, hget, ?_, ?_, ?_, by simp, rfl, ?_⟩
    · rw [← hsave]
      simp [saveButton, hst, save_disabled, hflag]
    · cases b <;> simp
    · intro v hv
      rw [List.mem_map] at hv
      obtain ⟨t, -, rfl⟩ := hv
      cases t <;> simp
    · intro j hj
      exact List.getElem?_set_ne (fun he => hj he.symm)

/-- C1 witness: the guard half of the Save theorem applied to a concrete
two-record session whose staged flag is still unset. -/
theorem save_guard_and_commit_witness :
    saveButton
      { df := [{ order := 1, flag := none,
                 tags := [0, 0, 0, 0, 0, 0, 0, 0, 0, 0], notes := none },
               { order := 2, flag := none,
                 tags := [0, 0, 0, 0, 0, 0, 0, 0, 0, 0], notes := none }],
        view_idx := 0, filter_unlabeled := true,
        staged := some (init_staged_state 1) } = none :=
  (save_guard_and_commit _
      { order := 1, flag := none,
        tags := [0, 0, 0, 0, 0, 0, 0, 0, 0, 0], notes := none }
      (init_staged_state 1) (by decide) rfl (by decide) (by decide)).1 rfl

/-- C3: a successful Save of a displayed, previously-unlabeled record lowers
the `remaining` count by exactly one, and Skip leaves it unchanged. -/
theorem remaining_after_save_and_skip (s : SessionState) (row : Record)
    (stg : Staged) (b : Bool)
    (hnd : (s.df.map Record.order).Nodup)
    (hst : s.staged = some stg)
    (hidx : s.view_idx < (buildView s.df s.filter_unlabeled).length)
    (hrow : (buildView s.df s.filter_unlabeled)[s.view_idx]? = some row)
    (hflag : stg.flag = some b)
    (hunl : isUnlabeled row = true) :
    saveButton s = some (saveStep s) ∧
    remaining (saveStep s).df + 1 = remaining s.df ∧
    (∀ s2 : SessionState, remaining (skipStep s2).df = remaining s2.df) := by
  have hcl : clampIdx (buildView s.df s.filter_unlabeled).length s.view_idx =
      s.view_idx := by
    unfold clampIdx
    rw [if_neg (by omega)]
  refine ⟨by simp [saveButton, hst, save_disabled, hflag], ?_, fun s2 => rfl⟩
  have hmem : row ∈ s.df :=
    mem_of_mem_buildView (List.mem_iff_getElem?.mpr ⟨s.view_idx, hrow⟩)
  obtain ⟨pos, hpos, hget⟩ := real_pos_locates hnd hmem
  have hsave := saveStep_eq hst (by rw [hcl]; exact hrow) hpos hget
  rw [hsave]
  unfold remaining
  exact length_filter_set_unlabeled hget hunl (by simp [isUnlabeled, commitRecord])

/-- C3 witness: the remaining-count theorem applied to a concrete session
saving its first (unlabeled) record with flag Y. -/
theorem remaining_after_save_and_skip_witness :
    remaining (saveStep
      { df := [{ order := 1, flag := none,
                 tags := [0, 0, 0, 0, 0, 0, 0, 0, 0, 0], notes := none },
               { order := 2, flag := none,
                 tags := [0, 0, 0, 0, 0, 0, 0, 0, 0, 0], notes := none }],
        view_idx := 0, filter_unlabeled := true,
        staged := some { order := 1, flag := some true,
                         tags := [true, false, false, false, false,
                                  false, false, false, false, false],
                         notes := "ok" } }).df + 1 =
    remaining
      [{ order := 1, flag := none,
         tags := [0, 0, 0, 0, 0, 0, 0, 0, 0, 0], notes := none },
       { order := 2, flag := none,
         tags := [0, 0, 0, 0, 0, 0, 0, 0, 0, 0], notes := none }] :=
  (remaining_after_save_and_skip _
      { order := 1, flag := none,
        tags := [0, 0, 0, 0, 0, 0, 0, 0, 0, 0], notes := none }
      { order := 1, flag := some true,
        tags := [true, false, false, false, false,
                 false, false, false, false, false],
        notes := "ok" } true
      (by decide) rfl (by decide) (by decide) rfl (by decide)).2.1

/-- C10: once a dataset is held in the session, the load branch never runs
again — any further upload, of any file, leaves the session unchanged and
performs no load and no error report. -/
theorem df_never_reloaded (s : AppSession) (u : Option UploadedFile)
    (d : DataFrame) (h : s.df = some d) : loadBranch s u = (s, none) := by
  cases u with
  | none => rfl
  | some f => simp [loadBranch, h]

/-- C10 witness: a second upload against a concrete loaded session is a
no-op. -/
theorem df_never_reloaded_witness :
    loadBranch { df := some { cols := [], rows := [] }, view_idx := 0,
                 filter_unlabeled := true, staged := none }
      (some { name := "other.csv",
              csvResult := some { cols := ["A"], rows := [[("A", Cell.int 1)]] },
              excelSheets := none }) =
      ({ df := some { cols := [], rows := [] }, view_idx := 0,
         filter_unlabeled := true, staged := none }, none) :=
  df_never_reloaded _ _ { cols := [], rows := [] } rfl

end Rewire
